import Mathlib

/-!
Verification of the pairing / transfer-session logic of ARK-Drop-Desktop.

JavaScript strings are modelled as lists of characters (`List Char`), one
entry per UTF-16 code unit; all strings appearing in the program are ASCII,
where code units and code points coincide.  JavaScript numbers that carry
byte counts and times are modelled as rationals (`ℚ`); the places where a
JavaScript expression produces `NaN`/`Infinity` are modelled explicitly with
`Option`.
-/

namespace ArkDrop

/-- A JavaScript string, one entry per UTF-16 code unit. -/
abbrev JsString := List Char

/-- Coerce a Lean string literal to the `JsString` model. -/
def str (s : String) : JsString := s.toList

/-- `getConfirmationCode` from `src/lib/util.ts` (lines 60–67):
`hash.split('').map(c => c.charCodeAt(0)).reduce((acc, curr) => acc + curr, 0) % 100`. -/
def getConfirmationCode (hash : JsString) : Nat :=
  ((hash.map (fun char => char.toNat)).foldl (fun acc curr => acc + curr) 0) % 100

lemma foldl_add_eq_sum (l : List Nat) (a : Nat) :
    l.foldl (fun acc curr => acc + curr) a = a + l.sum := by
  induction l generalizing a with
  | nil => simp
  | cons x xs ih => simp [List.foldl_cons, ih, Nat.add_assoc]

/-- C1: `getConfirmationCode` is a pure function of the handle: it returns the
sum of the numeric code points of the characters, reduced modulo 100, hence an
integer in `[0,100)`; it is deterministic (two calls on the same handle agree);
`"ab"` yields `95` and the empty string yields `0`. -/
theorem c1_getConfirmationCode_spec :
    (∀ hash : JsString,
      getConfirmationCode hash = (hash.map Char.toNat).sum % 100 ∧
      getConfirmationCode hash < 100 ∧
      getConfirmationCode hash = getConfirmationCode hash) ∧
    getConfirmationCode (str "ab") = 95 ∧
    getConfirmationCode (str "") = 0 := by
  refine ⟨fun hash => ⟨?_, ?_, rfl⟩, by decide, by decide⟩
  · unfold getConfirmationCode
    rw [foldl_add_eq_sum, Nat.zero_add]
  · exact Nat.mod_lt _ (by norm_num)

/-! ## Sender transfer-session listener (src/unnamed/part_002, lines 31–54) -/

/-- The four values of the `status` variable of the sender page. -/
inductive Status
  | waiting
  | transferring
  | completed
  | aborted
deriving DecidableEq, Repr

/-- The mutable script state of the sender page (src/unnamed/part_002,
lines 18–24): `connection_id`, `status`, `messages`, `connected`,
`totalBlobs`, `transferredBlobs`. -/
structure SenderState where
  connection_id : Option JsString
  status : Status
  messages : List JsString
  connected : Bool
  totalBlobs : Nat
  transferredBlobs : Nat
deriving DecidableEq, Repr

/-- Initial values of the sender page's variables; `totalBlobs` is
`data.files.length`. -/
def initialSenderState (totalBlobs : Nat) : SenderState :=
  { connection_id := none
    status := .waiting
    messages := []
    connected := false
    totalBlobs := totalBlobs
    transferredBlobs := 0 }

/-- JavaScript `message.split(' ')`: cut at every single space, keeping empty
pieces; `"".split(' ')` is `[""]`. -/
def splitSpace : JsString → List JsString
  | [] => [[]]
  | c :: rest =>
    if c = ' ' then
      [] :: splitSpace rest
    else
      match splitSpace rest with
      | [] => [[c]]
      | w :: ws => (c :: w) :: ws

/-- JavaScript `parts.join(' ')`. -/
def joinSpace : List JsString → JsString
  | [] => []
  | [w] => w
  | w :: ws => w ++ ' ' :: joinSpace ws

/-- JavaScript `s.startsWith(search)`. -/
def startsWith (s search : JsString) : Bool := search.isPrefixOf s

/-- The body of the `sender_progress` listener of src/unnamed/part_002
(lines 37–53) after the payload has been cut into `conn_id` (`parts[0]`) and
`action` (`parts.slice(1).join(' ')`). -/
def senderStepParts (s : SenderState) (conn_id action : JsString) : SenderState :=
  if action = str "client connected" then
    { s with connection_id := some conn_id
             status := .transferring
             connected := true
             messages := s.messages ++ [str "Client connected"]
             transferredBlobs := 0 }
  else if startsWith action (str "transfer blob completed") then
    { s with transferredBlobs := s.transferredBlobs + 1
             messages := s.messages ++ [str "Blob transferred"] }
  else if startsWith action (str "transfer completed") then
    { s with status := .completed
             transferredBlobs := s.totalBlobs
             messages := s.messages ++ [str "Transfer completed"] }
  else if action = str "transfer aborted" then
    { s with status := .aborted
             messages := s.messages ++ [str "Transfer aborted"] }
  else s

/-- The `sender_progress` listener of src/unnamed/part_002 (lines 31–54):
`parts = message.split(' ')`, `conn_id = parts[0]`,
`action = parts.slice(1).join(' ')`, then the `if`/`else if` chain. -/
def senderStep (s : SenderState) (message : JsString) : SenderState :=
  let parts := splitSpace message
  let conn_id := parts.headD []
  let action := joinSpace (parts.drop 1)
  senderStepParts s conn_id action

lemma splitSpace_ne_nil (l : JsString) : splitSpace l ≠ [] := by
  cases l with
  | nil => simp [splitSpace]
  | cons c rest =>
    simp only [splitSpace]
    split
    · simp
    · split <;> simp

lemma splitSpace_append (cid rest : JsString) (h : ' ' ∉ cid) :
    splitSpace (cid ++ ' ' :: rest) = cid :: splitSpace rest := by
  induction cid with
  | nil => simp [splitSpace]
  | cons c cs ih =>
    have hc : c ≠ ' ' := fun hc => h (by simp [hc])
    have hcs : ' ' ∉ cs := fun hm => h (List.mem_cons_of_mem _ hm)
    simp only [List.cons_append, splitSpace, if_neg hc, List.append_eq, ih hcs]

/-- `senderStep` on a message `"<cid> <actionText>"` where `cid` has no space:
the listener sees `conn_id = cid` and `action = actionText` reassembled. -/
lemma senderStep_split (s : SenderState) (cid rest : JsString) (h : ' ' ∉ cid) :
    senderStep s (cid ++ ' ' :: rest) =
      senderStepParts s cid (joinSpace ((splitSpace rest))) := by
  unfold senderStep
  rw [splitSpace_append _ _ h]
  rfl

/-- Erase the stored `connection_id` of a sender state. -/
def forgetConnId (s : SenderState) : SenderState := { s with connection_id := none }

lemma senderStepParts_conn_irrelevant (s : SenderState) (c₁ c₂ action : JsString) :
    forgetConnId (senderStepParts s c₁ action) =
      forgetConnId (senderStepParts s c₂ action) := by
  unfold senderStepParts
  split_ifs <;> rfl

/-- C2 fails on the code: after `peer-connected` with id `"c1"`, a
`transfer-aborted` event with mismatched id `"c2"` is *not* ignored — the
status becomes `ABORTED` instead of remaining `TRANSFERRING`. -/
theorem c2_counterexample :
    (senderStep (senderStep (initialSenderState 3) (str "c1 client connected"))
        (str "c2 transfer aborted")).status = Status.aborted ∧
    Status.aborted ≠ Status.transferring := by
  constructor
  · decide
  · decide

/-- C2 (amended): the listener never compares the embedded connection id with
the stored one; the transition taken depends only on the action text, so for
two events that differ only in their leading connection token the resulting
states agree on every field except possibly the stored `connection_id`. -/
theorem c2_amended (s : SenderState) (cid₁ cid₂ rest : JsString)
    (h₁ : ' ' ∉ cid₁) (h₂ : ' ' ∉ cid₂) :
    forgetConnId (senderStep s (cid₁ ++ ' ' :: rest)) =
      forgetConnId (senderStep s (cid₂ ++ ' ' :: rest)) := by
  rw [senderStep_split s cid₁ rest h₁, senderStep_split s cid₂ rest h₂]
  exact senderStepParts_conn_irrelevant s cid₁ cid₂ _

/-- C2 amended, at the spec's own scenario: `"c1 client connected"` then an
abort with mismatched id `"c2"` acts exactly like one with matching id
`"c1"` (up to the stored connection id). -/
theorem c2_amended_witness :
    forgetConnId
        (senderStep (senderStep (initialSenderState 3) (str "c1 client connected"))
          (str "c2" ++ ' ' :: str "transfer aborted")) =
      forgetConnId
        (senderStep (senderStep (initialSenderState 3) (str "c1 client connected"))
          (str "c1" ++ ' ' :: str "transfer aborted")) :=
  c2_amended _ (str "c2") (str "c1") (str "transfer aborted") (by decide) (by decide)

lemma senderStepParts_aborted (s : SenderState) (cid : JsString) :
    (senderStepParts s cid (str "transfer aborted")).status = Status.aborted := by
  unfold senderStepParts
  rw [if_neg (by decide), if_neg (by decide), if_neg (by decide), if_pos (by decide)]

lemma senderStepParts_completed (s : SenderState) (cid : JsString) :
    (senderStepParts s cid (str "transfer completed")).status = Status.completed := by
  unfold senderStepParts
  rw [if_neg (by decide), if_neg (by decide), if_pos (by decide)]

lemma senderStepParts_connected (s : SenderState) (cid : JsString) :
    (senderStepParts s cid (str "client connected")).status = Status.transferring := by
  unfold senderStepParts
  rw [if_pos (by decide)]

/-- C3 fails on the code: `COMPLETED` is not terminal.  Reaching `COMPLETED`
via `"c1 client connected"`, `"c1 transfer completed"` and then processing a
duplicate-style `"c1 transfer aborted"` changes the status to `ABORTED`. -/
theorem c3_counterexample :
    (senderStep (senderStep (initialSenderState 2) (str "c1 client connected"))
        (str "c1 transfer completed")).status = Status.completed ∧
    (senderStep
        (senderStep (senderStep (initialSenderState 2) (str "c1 client connected"))
          (str "c1 transfer completed"))
        (str "c1 transfer aborted")).status = Status.aborted ∧
    Status.aborted ≠ Status.completed := by
  refine ⟨by decide, by decide, by decide⟩

/-- C3 (amended): `COMPLETED` and `ABORTED` are not terminal — the listener
never inspects the current status, so in every state (terminal ones included)
a `transfer aborted` event yields `ABORTED`, a `transfer completed` event
yields `COMPLETED`, and a `client connected` event yields `TRANSFERRING`,
whatever connection token the event carries. -/
theorem c3_amended (s : SenderState) (cid : JsString) (h : ' ' ∉ cid) :
    (senderStep s (cid ++ ' ' :: str "transfer aborted")).status = Status.aborted ∧
    (senderStep s (cid ++ ' ' :: str "transfer completed")).status = Status.completed ∧
    (senderStep s (cid ++ ' ' :: str "client connected")).status = Status.transferring := by
  refine ⟨?_, ?_, ?_⟩
  · rw [senderStep_split s cid _ h,
      show joinSpace (splitSpace (str "transfer aborted")) = str "transfer aborted"
        from by decide]
    exact senderStepParts_aborted s cid
  · rw [senderStep_split s cid _ h,
      show joinSpace (splitSpace (str "transfer completed")) = str "transfer completed"
        from by decide]
    exact senderStepParts_completed s cid
  · rw [senderStep_split s cid _ h,
      show joinSpace (splitSpace (str "client connected")) = str "client connected"
        from by decide]
    exact senderStepParts_connected s cid

/-- C3 amended, instantiated in the `COMPLETED` state with token `"c1"`. -/
theorem c3_amended_witness :
    (senderStep
        { connection_id := some (str "c1"), status := Status.completed,
          messages := [], connected := true, totalBlobs := 2, transferredBlobs := 2 }
        (str "c1" ++ ' ' :: str "transfer aborted")).status = Status.aborted :=
  (c3_amended _ (str "c1") (by decide)).1

/-! ## Blob progress (src/unnamed/part_010, src/unnamed/part_011,
src/routes/transfers/transferring/+page.svelte) -/

/-- The `FileTransfer` DTO of `$lib/types` (src/unnamed/part_011):
`{ name: string, transferred: number, total: number }`; byte counts are
modelled as rationals. -/
structure FileTransfer where
  name : JsString
  transferred : ℚ
  total : ℚ
deriving DecidableEq, Repr

/-- `percentComplete(done, all)` from the `FileTransfer` component
(src/unnamed/part_010, lines 30–32): `Math.floor((done / all) * 100)`.
When `all = 0` the JavaScript expression is `NaN` (or `±Infinity`), not an
integer; that outcome is modelled as `none`. -/
def percentComplete (done all : ℚ) : Option ℤ :=
  if all = 0 then none else some ⌊done / all * 100⌋

/-- Sum of the `transferred` fields of a blob list. -/
def sumTransferred (blobs : List FileTransfer) : ℚ :=
  (blobs.map (fun b => b.transferred)).sum

/-- Sum of the `total` fields of a blob list. -/
def sumTotal (blobs : List FileTransfer) : ℚ :=
  (blobs.map (fun b => b.total)).sum

/-- Modelled from the spec: the session-wide `overallPercent` of spec §4.4 has
no single counterpart in the code; it is the code's per-call `percentComplete`
applied to the byte sums across the session's blobs. -/
def overallPercent (blobs : List FileTransfer) : Option ℤ :=
  percentComplete (sumTransferred blobs) (sumTotal blobs)

/-- C4 fails on the code at the empty session: `percentComplete` has no
zero-denominator guard, so with `totalBlobCount == 0` (all sums `0`) the
JavaScript expression is `NaN` (modelled `none`), not `0`. -/
theorem c4_counterexample :
    overallPercent [] ≠ some 0 ∧ overallPercent [] = none := by
  constructor
  · simp [overallPercent, percentComplete, sumTransferred, sumTotal]
  · simp [overallPercent, percentComplete, sumTransferred, sumTotal]

/-- C4 (amended): for a session whose blobs satisfy the data-model invariant
`0 ≤ transferred ≤ total` and whose total byte count is positive,
`overallPercent` is `floor(100 * sum(transferred) / sum(total))`, an integer
in `[0,100]`; for the blobs `[{50,100},{100,100}]` it is `75`.  When the
total byte count is `0` (in particular when there are no blobs) the result is
the `NaN` sentinel `none`, not `0`. -/
theorem c4_amended (blobs : List FileTransfer)
    (hblob : ∀ b ∈ blobs, 0 ≤ b.transferred ∧ b.transferred ≤ b.total)
    (hpos : 0 < sumTotal blobs) :
    overallPercent blobs = some ⌊sumTransferred blobs / sumTotal blobs * 100⌋ ∧
    0 ≤ ⌊sumTransferred blobs / sumTotal blobs * 100⌋ ∧
    ⌊sumTransferred blobs / sumTotal blobs * 100⌋ ≤ 100 ∧
    overallPercent [⟨str "a", 50, 100⟩, ⟨str "b", 100, 100⟩] = some 75 := by
  have htr : 0 ≤ sumTransferred blobs :=
    List.sum_nonneg (by
      intro x hx
      rcases List.mem_map.mp hx with ⟨b, hb, rfl⟩
      exact (hblob b hb).1)
  have hle : sumTransferred blobs ≤ sumTotal blobs :=
    List.sum_le_sum (fun b hb => (hblob b hb).2)
  have hratio : sumTransferred blobs / sumTotal blobs * 100 ≤ 100 := by
    have h1 : sumTransferred blobs / sumTotal blobs ≤ 1 :=
      (div_le_one hpos).mpr hle
    nlinarith
  refine ⟨?_, ?_, ?_, ?_⟩
  · simp [overallPercent, percentComplete, hpos.ne']
  · exact Int.floor_nonneg.mpr (by positivity)
  · calc ⌊sumTransferred blobs / sumTotal blobs * 100⌋
        ≤ ⌊(100 : ℚ)⌋ := Int.floor_le_floor hratio
      _ = 100 := by norm_num
  · have : sumTransferred [⟨str "a", 50, 100⟩, ⟨str "b", 100, 100⟩] = 150 := by
      simp [sumTransferred]; norm_num
    have htot : sumTotal [⟨str "a", 50, 100⟩, ⟨str "b", 100, 100⟩] = 200 := by
      simp [sumTotal]; norm_num
    rw [overallPercent, this, htot, percentComplete]
    norm_num

/-- C4 amended, at the spec's own example blobs. -/
theorem c4_amended_witness :
    overallPercent [⟨str "a", 50, 100⟩, ⟨str "b", 100, 100⟩] = some 75 :=
  (c4_amended [⟨str "a", 50, 100⟩, ⟨str "b", 100, 100⟩]
      (by decide)
      (by norm_num [sumTotal])).2.2.2

/-! ## Receiver transferring page
(src/routes/transfers/transferring/+page.svelte) -/

/-- The mutable script state of the transferring page (lines 16–19):
`time_complete`, `done`, `output`, `transferFiles`. -/
structure ReceiverState where
  time_complete : Option ℚ
  done : Bool
  output : JsString
  transferFiles : List FileTransfer
deriving DecidableEq, Repr

/-- Initial values of the transferring page's variables. -/
def initialReceiverState : ReceiverState :=
  { time_complete := none, done := false, output := [], transferFiles := [] }

/-- The `download_progress` listener (lines 35–37):
`transferFiles = event.payload` — the blob list is replaced wholesale by the
snapshot carried in the event. -/
def applySnapshot (s : ReceiverState) (payload : List FileTransfer) : ReceiverState :=
  { s with transferFiles := payload }

/-- Count of completed blobs, derived from the rendering condition of the
`FileTransfer` component (src/unnamed/part_010, line 40): a blob is rendered
as uploaded exactly when `¬(transferred < total)`. -/
def countCompleted (blobs : List FileTransfer) : Nat :=
  (blobs.filter (fun f => !decide (f.transferred < f.total))).length

/-- Session-level completed-blob count: a pure function of the current blob
list. -/
def completedBlobCount (s : ReceiverState) : Nat :=
  countCompleted s.transferFiles

/-- C5: `applySnapshot` is idempotent — applying the same snapshot twice
yields the state of applying it once; the blob list is replaced wholesale by
the snapshot, and the completed-blob count is recomputed from the snapshot
alone (no incremental counter survives in the state). -/
theorem c5_applySnapshot_idempotent :
    ∀ (s : ReceiverState) (blobs : List FileTransfer),
      applySnapshot (applySnapshot s blobs) blobs = applySnapshot s blobs ∧
      (applySnapshot s blobs).transferFiles = blobs ∧
      completedBlobCount (applySnapshot s blobs) = countCompleted blobs :=
  fun _ _ => ⟨rfl, rfl, rfl⟩

/-- `updateTransfer` from the `FileTransfer` component (src/unnamed/part_010,
lines 19–24): when the `transferred` byte count changed since the previous
animation frame, recompute `internetSpeed = file.transferred -
previousFile.transferred` and `timeLeft = (file.total - file.transferred) /
internetSpeed` and remember the file; otherwise leave all three unchanged.
Returns the new `(internetSpeed, timeLeft, previousFile)`. -/
def updateTransfer (previousFile file : FileTransfer)
    (internetSpeed timeLeft : ℚ) : ℚ × ℚ × FileTransfer :=
  if previousFile.transferred ≠ file.transferred then
    let speed := file.transferred - previousFile.transferred
    (speed, (file.total - file.transferred) / speed, file)
  else
    (internetSpeed, timeLeft, previousFile)

/-- C6 fails on the code: with a negative rate (`transferred` dropped from
`10` to `5` out of `100`) the code returns the plain numeric value
`(100 - 5) / (-5) = -19` as the remaining time — a finite negative number,
not an `+infinity` sentinel and not a `RateUnavailable` signal. -/
theorem c6_counterexample :
    (updateTransfer ⟨str "f", 10, 100⟩ ⟨str "f", 5, 100⟩ 0 0).2.1 = -19 ∧
    (-19 : ℚ) < 0 ∧
    (updateTransfer ⟨str "f", 5, 100⟩ ⟨str "f", 5, 100⟩ 7 13).2.1 = 13 := by
  refine ⟨?_, by norm_num, ?_⟩
  · rw [updateTransfer, if_pos (by norm_num)]
    norm_num
  · rw [updateTransfer, if_neg (by norm_num)]

/-- C6 (amended): the code computes the per-frame rate
`file.transferred - previousFile.transferred` (there is no `elapsedSeconds`
divisor) and divides by it whenever it is nonzero — including when it is
negative, in which case the returned remaining time is a negative number
rather than an infinity sentinel or a `RateUnavailable` signal; when the rate
is zero (no change) the previous numeric `internetSpeed`/`timeLeft` are kept
unchanged. -/
theorem c6_amended (prev cur : FileTransfer) (sp tl : ℚ) :
    (prev.transferred = cur.transferred →
      updateTransfer prev cur sp tl = (sp, tl, prev)) ∧
    (prev.transferred ≠ cur.transferred →
      updateTransfer prev cur sp tl =
        (cur.transferred - prev.transferred,
          (cur.total - cur.transferred) / (cur.transferred - prev.transferred),
          cur)) ∧
    (cur.transferred < prev.transferred → cur.transferred < cur.total →
      (updateTransfer prev cur sp tl).2.1 < 0) := by
  refine ⟨fun h => ?_, fun h => ?_, fun hlt hrem => ?_⟩
  · rw [updateTransfer, if_neg (by simp [h])]
  · rw [updateTransfer, if_pos h]
  · rw [updateTransfer, if_pos (by exact fun heq => absurd heq.symm (ne_of_lt hlt))]
    exact div_neg_of_pos_of_neg (by linarith) (by linarith)

/-- C6 amended, at the counterexample's inputs: the remaining time returned
for a negative rate is negative. -/
theorem c6_amended_witness :
    (updateTransfer ⟨str "g", 10, 100⟩ ⟨str "g", 5, 100⟩ 0 0).2.1 < 0 :=
  (c6_amended ⟨str "g", 10, 100⟩ ⟨str "g", 5, 100⟩ 0 0).2.2
    (by norm_num) (by norm_num)

/-- The result of the awaited `receive_files` engine call: either an output
directory (with the elapsed milliseconds measured around the call) or a
thrown error. -/
inductive ReceiveResult
  | ok (output : JsString) (elapsed_ms : ℚ)
  | err (error : JsString)

/-- `onMount` of the transferring page (lines 21–33): on success store the
output directory, the elapsed time and set `done = true`; a failure is caught
and only logged (`console.error`), leaving every variable unchanged. -/
def receiveMount (s : ReceiverState) (result : ReceiveResult) : ReceiverState :=
  match result with
  | .ok out elapsed =>
      { s with output := out, time_complete := some elapsed, done := true }
  | .err _ => s

/-- The view the transferring page presents, derived solely from `done`
(markup lines 53–91): `false` renders the in-progress ("Wait a moment while
transfering") view, `true` the "Files Received" view.  No markup branch of
this page renders an aborted view. -/
def presentedStatus (s : ReceiverState) : Status :=
  if s.done then Status.completed else Status.transferring

/-- C7 fails on the code: a failing `receive_files` call is caught and only
logged, so the state is exactly the initial one and the page keeps presenting
the `TRANSFERRING` view — `ABORTED` is never presented. -/
theorem c7_counterexample :
    receiveMount initialReceiverState (.err (str "engine failure")) =
      initialReceiverState ∧
    presentedStatus
        (receiveMount initialReceiverState (.err (str "engine failure"))) =
      Status.transferring ∧
    Status.transferring ≠ Status.aborted := by
  refine ⟨rfl, rfl, by decide⟩

lemma presentedStatus_ne_aborted (s : ReceiverState) :
    presentedStatus s ≠ Status.aborted := by
  unfold presentedStatus
  split <;> decide

/-- C7 (amended): when `receive_files` fails the caller does not crash — the
error is caught and swallowed — but no transition happens: the page state is
unchanged, a session that was not done keeps presenting the `TRANSFERRING`
view indefinitely, and `ABORTED` is never presented (the page has no aborted
view at all). -/
theorem c7_amended (s : ReceiverState) (e : JsString) :
    receiveMount s (.err e) = s ∧
    (s.done = false →
      presentedStatus (receiveMount s (.err e)) = Status.transferring) ∧
    presentedStatus (receiveMount s (.err e)) ≠ Status.aborted := by
  refine ⟨rfl, fun h => ?_, presentedStatus_ne_aborted _⟩
  simp [receiveMount, presentedStatus, h]

/-- C7 amended, at the initial state with a concrete engine error. -/
theorem c7_amended_witness :
    presentedStatus
        (receiveMount initialReceiverState (.err (str "ReceiveFailed"))) =
      Status.transferring :=
  (c7_amended initialReceiverState (str "ReceiveFailed")).2.1 rfl

/-! ## Receiver confirm page
(src/routes/transfers/recieve/confirm/+page.svelte, src/unnamed/part_003) -/

/-- The `while (codes.length < 3)` loop of the confirm page (lines 17–22):
draw `randomCode` from the random source, push it unless already present.
`rng i` models the `i`-th call of `Math.floor(Math.random() * 100)`; `fuel`
bounds the number of iterations modelled, `none` meaning the loop has not
finished within `fuel` iterations. -/
def codesLoop (rng : Nat → Nat) : Nat → Nat → List Nat → Option (List Nat)
  | 0, _, codes => if codes.length < 3 then none else some codes
  | fuel + 1, i, codes =>
    if codes.length < 3 then
      let randomCode := rng i
      if codes.contains randomCode then
        codesLoop rng fuel (i + 1) codes
      else
        codesLoop rng fuel (i + 1) (codes ++ [randomCode])
    else some codes

/-- The `codes` value of the confirm page: `let codes =
[data.confirmationCode]` followed by the while loop. -/
def buildChallenge (rng : Nat → Nat) (fuel : Nat) (confirmationCode : Nat) :
    Option (List Nat) :=
  codesLoop rng fuel 0 [confirmationCode]

lemma codesLoop_some (rng : Nat → Nat) (hr : ∀ n, rng n < 100) :
    ∀ (fuel i : Nat) (codes r : List Nat),
      (∀ x ∈ codes, x < 100) → codes.Nodup → codes.length ≤ 3 →
      codesLoop rng fuel i codes = some r →
      r.length = 3 ∧ r.Nodup ∧ (∀ x ∈ r, x < 100) ∧ codes ⊆ r := by
  intro fuel
  induction fuel with
  | zero =>
    intro i codes r h1 h2 h3 h
    rw [codesLoop] at h
    by_cases hlen : codes.length < 3
    · rw [if_pos hlen] at h
      exact absurd h (by simp)
    · rw [if_neg hlen] at h
      cases h
      exact ⟨le_antisymm h3 (not_lt.mp hlen), h2, h1, List.Subset.refl _⟩
  | succ fuel ih =>
    intro i codes r h1 h2 h3 h
    rw [codesLoop] at h
    by_cases hlen : codes.length < 3
    · rw [if_pos hlen] at h
      simp only at h
      by_cases hc : codes.contains (rng i)
      · rw [if_pos hc] at h
        exact ih (i + 1) codes r h1 h2 h3 h
      · rw [if_neg hc] at h
        have hmem : rng i ∉ codes := by
          intro hm
          exact hc (List.elem_eq_true_of_mem hm)
        have h1' : ∀ x ∈ codes ++ [rng i], x < 100 := by
          intro x hx
          rcases List.mem_append.mp hx with hx | hx
          · exact h1 x hx
          · rcases List.mem_singleton.mp hx with rfl
            exact hr i
        have h2' : (codes ++ [rng i]).Nodup := by
          simp [List.nodup_append, h2, hmem]
        have h3' : (codes ++ [rng i]).length ≤ 3 := by
          simp only [List.length_append, List.length_singleton]
          omega
        obtain ⟨l3, nd, bd, sub⟩ := ih (i + 1) (codes ++ [rng i]) r h1' h2' h3' h
        exact ⟨l3, nd, bd, fun x hx => sub (List.mem_append_left _ hx)⟩
    · rw [if_neg hlen] at h
      cases h
      exact ⟨le_antisymm h3 (not_lt.mp hlen), h2, h1, List.Subset.refl _⟩

lemma codesLoop_head (rng : Nat → Nat) :
    ∀ (fuel i : Nat) (codes r : List Nat),
      codes ≠ [] → codesLoop rng fuel i codes = some r →
      r.head? = codes.head? := by
  intro fuel
  induction fuel with
  | zero =>
    intro i codes r hne h
    rw [codesLoop] at h
    by_cases hlen : codes.length < 3
    · rw [if_pos hlen] at h
      exact absurd h (by simp)
    · rw [if_neg hlen] at h
      cases h
      rfl
  | succ fuel ih =>
    intro i codes r hne h
    rw [codesLoop] at h
    by_cases hlen : codes.length < 3
    · rw [if_pos hlen] at h
      simp only at h
      by_cases hc : codes.contains (rng i)
      · rw [if_pos hc] at h
        exact ih (i + 1) codes r hne h
      · rw [if_neg hc] at h
        have := ih (i + 1) (codes ++ [rng i]) r (by simp) h
        rw [this]
        cases codes with
        | nil => exact absurd rfl hne
        | cons a l => rfl
    · rw [if_neg hlen] at h
      cases h
      rfl

/-- C8: whenever the code-generation loop finishes, the displayed challenge
consists of exactly 3 mutually distinct integers, each in `[0,100)`, with the
correct confirmation code among them — for every correct code in `[0,100)`
and every random source drawing from `[0,100)`. -/
theorem c8_buildChallenge_spec (rng : Nat → Nat) (hr : ∀ n, rng n < 100)
    (c : Nat) (hc : c < 100) (fuel : Nat) (r : List Nat)
    (h : buildChallenge rng fuel c = some r) :
    r.length = 3 ∧ r.Nodup ∧ (∀ x ∈ r, x < 100) ∧ c ∈ r := by
  obtain ⟨l3, nd, bd, sub⟩ :=
    codesLoop_some rng hr fuel 0 [c] r (by simpa using hc) (by simp) (by simp) h
  exact ⟨l3, nd, bd, sub (by simp)⟩

/-- C8, at correct code `42` with the random source `n % 100`. -/
theorem c8_witness :
    ([42, 0, 1] : List Nat).length = 3 ∧ ([42, 0, 1] : List Nat).Nodup ∧
      (∀ x ∈ ([42, 0, 1] : List Nat), x < 100) ∧ 42 ∈ ([42, 0, 1] : List Nat) :=
  c8_buildChallenge_spec (fun n => n % 100) (fun n => Nat.mod_lt n (by norm_num))
    42 (by norm_num) 3 [42, 0, 1] (by decide)

/-- C9 fails on the code: the position of the correct code *is* a function of
correctness — there is no random source, fuel, correct code and finished run
in which the correct code is anywhere but first, because `codes` is
initialised to `[confirmationCode]` and distractors are only ever pushed
after it. -/
theorem c9_counterexample :
    ¬ ∃ (rng : Nat → Nat) (fuel c : Nat) (r : List Nat),
        buildChallenge rng fuel c = some r ∧ r.head? ≠ some c := by
  rintro ⟨rng, fuel, c, r, h, hne⟩
  exact hne ((codesLoop_head rng fuel 0 [c] r (by simp) h).trans rfl)

/-- C9 (amended): the correct code always occupies the first position of the
displayed sequence — the challenge order is a constant (hence deterministic)
function of correctness, for every random source, fuel and correct code. -/
theorem c9_amended (rng : Nat → Nat) (fuel c : Nat) (r : List Nat)
    (h : buildChallenge rng fuel c = some r) : r.head? = some c :=
  (codesLoop_head rng fuel 0 [c] r (by simp) h).trans rfl

/-- C9 amended, at a concrete finished run with correct code `7`. -/
theorem c9_amended_witness : ([7, 0, 1] : List Nat).head? = some 7 :=
  c9_amended (fun n => n % 100) 3 7 [7, 0, 1] (by decide)

/-- A pending JavaScript `Promise`, as a value: `invoke` returns one
immediately; `result` is the value it will later resolve to. -/
structure JsPromise (α : Type) where
  result : α

/-- JavaScript `ToBoolean` applied to an object: every object — a pending
`Promise` included — is truthy. -/
def jsTruthyObject {α : Type} (_p : JsPromise α) : Bool := true

/-- Line 9 of the confirm page: `let isValidHash = invoke('is_valid_ticket',
{ ticket: data.hash })` — the binding holds the pending promise itself, not
the boolean it resolves to. -/
def isValidHash (hash : JsString) (is_valid_ticket : JsString → Bool) :
    JsPromise Bool :=
  ⟨is_valid_ticket hash⟩

/-- Outcome of running the confirm page's script. -/
inductive ConfirmInit
  | redirectToTransfers
  | showChallenge (codes : Option (List Nat))
deriving DecidableEq

/-- The confirm page's script (lines 9–22) composed with its route load
function (src/unnamed/part_003, `data.confirmationCode =
getConfirmationCode(hash)`): bind `isValidHash`, redirect to `/transfers`
when `!isValidHash`, otherwise run the codes loop seeded with the derived
confirmation code. -/
def confirmPageInit (rng : Nat → Nat) (fuel : Nat) (hash : JsString)
    (is_valid_ticket : JsString → Bool) : ConfirmInit :=
  if !(jsTruthyObject (isValidHash hash is_valid_ticket)) then
    ConfirmInit.redirectToTransfers
  else
    ConfirmInit.showChallenge (buildChallenge rng fuel (getConfirmationCode hash))

/-- C10: the ticket-validity guard never rejects: `isValidHash` holds a
pending promise, which is truthy as an object, so `!isValidHash` is false for
every ticket string and every engine verdict (valid or invalid), the redirect
branch is unreachable, and the page always proceeds to build and show the
challenge for the scanned or typed hash. -/
theorem c10_guard_never_rejects (rng : Nat → Nat) (fuel : Nat)
    (hash : JsString) (is_valid_ticket : JsString → Bool) :
    confirmPageInit rng fuel hash is_valid_ticket ≠
      ConfirmInit.redirectToTransfers ∧
    confirmPageInit rng fuel hash is_valid_ticket =
      ConfirmInit.showChallenge
        (buildChallenge rng fuel (getConfirmationCode hash)) := by
  constructor <;> simp [confirmPageInit, jsTruthyObject]

end ArkDrop
